import Mathlib

/-
Verification of the trade-execution engine of the telegram-bot-mt5-trading
assistant repository.

The engine's numeric code (risk sizing, stop-side validation, risk:reward
computation) is embedded over ℚ: the Python implementation works with
decimal-looking literals and its own unit tests assert exact decimal results
(0.20, 0.10, 0.23), so exact rational arithmetic is the intended semantics.
Python's built-in `round` (banker's rounding, round-half-to-even) is modelled
by `roundHalfEven` / `roundTo` below.

File-backed queues (engine/command_queue.py, engine/notification_queue.py) are
embedded as association lists keyed by file name, with the file system's
create/overwrite/unlink semantics.  The MetaTrader 5 terminal is embedded as an
oracle (`Terminal`, `ConnectEnv`): each adapter operation returns its result
together with the list of terminal interactions it performed, so that claims
about "never contacts the terminal" are statements about that event trace.
-/

/-- Python's `round(x)`: round half to even (banker's rounding), on ℚ. -/
def roundHalfEven (x : ℚ) : ℤ :=
  if x - ⌊x⌋ < 1/2 then ⌊x⌋
  else if 1/2 < x - ⌊x⌋ then ⌊x⌋ + 1
  else if 2 ∣ ⌊x⌋ then ⌊x⌋ else ⌊x⌋ + 1

/-- Python's `round(x, p)`: round to `p` decimal places, half to even. -/
def roundTo (x : ℚ) (p : ℕ) : ℚ := (roundHalfEven (x * 10 ^ p) : ℚ) / 10 ^ p

namespace RiskCalculator

/-- `RiskCalculator._round_to_step` (engine/risk_calculator.py):
round `value` down to the nearest multiple of `step`, snapping to 8 decimal
places first (`value = round(value, 8)` then `math.floor(value / step) * step`). -/
def round_to_step (value step : ℚ) : ℚ :=
  let v := roundTo value 8
  (⌊v / step⌋ : ℚ) * step

/-- `RiskCalculator.calculate_volume` (engine/risk_calculator.py).
`none` models Python's `None`.  Two sizing regimes are selected by
`tick_size >= 0.01`; the raw volume is then capped at `max_volume` (returned
as-is when the cap binds), otherwise rounded down to `volume_step` and finally
raised to `min_volume`. -/
def calculate_volume (risk_usd entry_price sl_price pip_value tick_size
    volume_step : ℚ) (min_volume : ℚ := 1/100) (max_volume : ℚ := 100) :
    Option ℚ :=
  if risk_usd ≤ 0 then none
  else
    let sl_distance_price := |entry_price - sl_price|
    if sl_distance_price = 0 then none
    else
      let raw_volume :=
        if tick_size ≥ 1/100 then
          -- Gold-like regime: Volume = Risk / (Distance × 100)
          risk_usd / (sl_distance_price * 100)
        else
          -- Forex-like regime: distance in pips (pip size 0.0001) times pip value
          let pip_size : ℚ := 1/10000
          let sl_distance_pips := sl_distance_price / pip_size
          risk_usd / (sl_distance_pips * pip_value)
      if raw_volume > max_volume then some max_volume
      else
        let volume := round_to_step raw_volume volume_step
        if volume < min_volume then some min_volume
        else some volume

/-- The post-sizing clamp pipeline of `calculate_volume`, factored out for use
in theorem statements: cap at `max_volume` (returned unrounded when it binds),
else floor to `volume_step`, else raise to `min_volume`. -/
def clampVolume (raw_volume volume_step min_volume max_volume : ℚ) : ℚ :=
  if raw_volume > max_volume then max_volume
  else
    let volume := round_to_step raw_volume volume_step
    if volume < min_volume then min_volume
    else volume

end RiskCalculator

namespace TradeValidator

/-- `TradeValidator.validate_sl_position` (engine/trade_validator.py):
LIMIT_BUY requires the stop strictly below entry, LIMIT_SELL strictly above;
any other order type is invalid. -/
def validate_sl_position (order_type : String) (entry_price sl_price : ℚ) : Bool :=
  if order_type = "LIMIT_BUY" then decide (sl_price < entry_price)
  else if order_type = "LIMIT_SELL" then decide (sl_price > entry_price)
  else false

/-- `TradeValidator.calculate_rr_ratio` (engine/trade_validator.py):
risk = |entry - sl|, reward = |tp - entry| with a sign flip when the target
lies on the losing side; returns 0 when risk is 0, otherwise the ratio rounded
to 2 decimal places (`round(rr_ratio, 2)`). -/
def calculate_rr_ratio (order_type : String) (entry_price sl_price tp_price : ℚ) : ℚ :=
  let risk := |entry_price - sl_price|
  let reward := |tp_price - entry_price|
  if risk = 0 then 0
  else
    let reward :=
      if order_type = "LIMIT_BUY" then
        if tp_price < entry_price then -(entry_price - tp_price) else reward
      else if order_type = "LIMIT_SELL" then
        if tp_price > entry_price then -(tp_price - entry_price) else reward
      else reward
    roundTo (reward / risk) 2

/-- Result dictionary of `TradeValidator.validate_trade`.  The Python dict has
no "error" key on the valid path; `error := none` models that. -/
structure ValidationResult where
  is_valid : Bool
  sl_valid : Bool
  rr_ratio : ℚ
  risk_pips : ℚ
  reward_pips : ℚ
  error : Option String
  deriving Repr, DecidableEq

/-- `TradeValidator.validate_trade` (engine/trade_validator.py): stop-side
check first, short-circuiting with a side-specific error; otherwise fills in
the risk:reward metrics and marks the trade valid. -/
def validate_trade (order_type : String) (entry_price sl_price tp_price : ℚ) :
    ValidationResult :=
  let sl_valid := validate_sl_position order_type entry_price sl_price
  if sl_valid = false then
    { is_valid := false
      sl_valid := sl_valid
      rr_ratio := 0
      risk_pips := 0
      reward_pips := 0
      error := some (
        if order_type = "LIMIT_BUY" then
          "For LIMIT BUY, stop loss must be below entry price"
        else if order_type = "LIMIT_SELL" then
          "For LIMIT SELL, stop loss must be above entry price"
        else "Invalid order type") }
  else
    { is_valid := true
      sl_valid := sl_valid
      rr_ratio := calculate_rr_ratio order_type entry_price sl_price tp_price
      risk_pips := |entry_price - sl_price|
      reward_pips := |tp_price - entry_price|
      error := none }

end TradeValidator

/-- The queue envelope written by `CommandQueue.enqueue`
(engine/command_queue.py): queue metadata wrapped around the original command.
The payload type is abstract (`α`) since the queue stores any JSON dict. -/
structure QueuedEnvelope (α : Type) where
  queue_id : String
  queued_at : String
  status : String
  command : α
  deriving Repr, DecidableEq

/-- `CommandQueue` (engine/command_queue.py): a directory of
`<queue_id>.json` files, modelled as an association list keyed by file name.
Writing `<id>.json` replaces any existing file of that name; `unlink` removes
it. -/
structure CommandQueue (α : Type) where
  files : List (String × QueuedEnvelope α)
  deriving Repr, DecidableEq

namespace CommandQueue

variable {α : Type}

/-- `CommandQueue.enqueue`: wrap the command in an envelope with a generated
`queue_id` and `queued_at` timestamp (both produced at run time, here passed
in) and atomically create `<queue_id>.json`; returns the queue id. -/
def enqueue (q : CommandQueue α) (queue_id queued_at : String) (command : α) :
    CommandQueue α × String :=
  let queue_command : QueuedEnvelope α :=
    { queue_id := queue_id
      queued_at := queued_at
      status := "pending"
      command := command }
  (⟨(queue_id, queue_command) :: q.files.filter (fun p => p.1 != queue_id)⟩,
    queue_id)

/-- `CommandQueue.dequeue`: read `<queue_id>.json` and delete it; `none` when
the file does not exist. -/
def dequeue (q : CommandQueue α) (queue_id : String) :
    Option (QueuedEnvelope α) × CommandQueue α :=
  match q.files.find? (fun p => p.1 == queue_id) with
  | none => (none, q)
  | some p => (some p.2, ⟨q.files.filter (fun r => r.1 != queue_id)⟩)

/-- `CommandQueue.list_pending`: the `.json` file stems, sorted by name. -/
def list_pending (q : CommandQueue α) : List String :=
  (q.files.map Prod.fst).mergeSort (fun a b => decide (a ≤ b))

/-- `CommandQueue.get_pending_count`: number of `.json` files. -/
def get_pending_count (q : CommandQueue α) : ℕ :=
  q.files.length

end CommandQueue

/-- A notification record written by `NotificationQueue.enqueue`
(engine/notification_queue.py). -/
structure Notification where
  notification_id : String
  telegram_id : ℤ
  trade_id : ℤ
  success : Bool
  message : String
  details : List (String × String)
  created_at : String
  sent : Bool
  deriving Repr, DecidableEq

/-- `NotificationQueue` (engine/notification_queue.py): a directory of
`<notification_id>.json` files, modelled as an association list keyed by file
name. -/
structure NotificationQueue where
  files : List (String × Notification)
  deriving Repr, DecidableEq

namespace NotificationQueue

/-- `NotificationQueue.mark_sent`: if `<notification_id>.json` exists, delete
it and return `True`; otherwise return `False` and touch nothing. -/
def mark_sent (q : NotificationQueue) (notification_id : String) :
    Bool × NotificationQueue :=
  if (q.files.find? (fun p => p.1 == notification_id)).isSome then
    (true, ⟨q.files.filter (fun p => p.1 != notification_id)⟩)
  else
    (false, q)

/-- `NotificationQueue.get_pending_count`: number of `.json` files. -/
def get_pending_count (q : NotificationQueue) : ℕ :=
  q.files.length

end NotificationQueue

/-- Instrument metadata dictionary returned by `MT5Adapter.get_symbol_info`
(engine/mt5_adapter.py). -/
structure SymbolInfo where
  name : String
  trade_contract_size : ℚ
  trade_tick_value : ℚ
  trade_tick_size : ℚ
  volume_min : ℚ
  volume_max : ℚ
  volume_step : ℚ
  point : ℚ
  digits : ℕ
  bid : ℚ
  ask : ℚ
  deriving Repr, DecidableEq

/-- Result dictionary of `MT5Adapter.place_limit_order`. -/
structure OrderResult where
  ticket : ℕ
  volume : ℚ
  price : ℚ
  retcode : ℕ
  comment : String
  deriving Repr, DecidableEq

/-- A trade command as built by the bot and consumed by
`MT5Adapter.execute_trade_command`. -/
structure TradeCommand where
  symbol : String
  order_type : String
  entry : ℚ
  sl : ℚ
  tp : ℚ
  risk_usd : ℚ
  emotion : String
  setup_code : String
  deriving Repr, DecidableEq

/-- Result dictionary of `MT5Adapter.execute_trade_command`. The Python dict
starts as `{success: False, error: None, ticket: None, execution_price: None}`
and gains a "volume" key only on success. -/
structure ExecutionResult where
  success : Bool
  error : Option String
  ticket : Option ℕ
  execution_price : Option ℚ
  volume : Option ℚ
  deriving Repr, DecidableEq

/-- One interaction of the adapter with the MetaTrader 5 terminal: an
instrument-metadata query (`mt5.symbol_info`) or an order submission
(`mt5.order_send`). -/
inductive TerminalEvent where
  | symbolInfoQuery (symbol : String)
  | orderSend (symbol order_type : String) (price sl tp volume : ℚ)
      (comment : String)
  deriving Repr, DecidableEq

/-- Oracle for the terminal's responses during one
`execute_trade_command` call (connection assumed healthy: `ensure_connected`
succeeds; connection recovery itself is modelled separately by `connect`). -/
structure Terminal where
  /-- `mt5.symbol_info` composed with the Market-Watch select fallback:
  `none` covers both "symbol not found" and "failed to select symbol". -/
  symbol_info : String → Option SymbolInfo
  /-- Outcome of `mt5.order_send` as seen by `place_limit_order`: `none`
  covers both a `None` result and a non-DONE retcode. -/
  order_send_result : Option OrderResult

namespace MT5Adapter

/-- `MT5Adapter.get_symbol_info`: queries the terminal for instrument
metadata; every call performs one metadata query. -/
def get_symbol_info (t : Terminal) (symbol : String) :
    Option SymbolInfo × List TerminalEvent :=
  (t.symbol_info symbol, [TerminalEvent.symbolInfoQuery symbol])

/-- `MT5Adapter.calculate_pip_value`: `tick_value / tick_size`. -/
def calculate_pip_value (symbol_info : SymbolInfo) : ℚ :=
  symbol_info.trade_tick_value / symbol_info.trade_tick_size

/-- `MT5Adapter.place_limit_order`: maps the order type, submits a pending
order, returns `none` on failure.  An invalid order type is rejected before
any terminal contact. -/
def place_limit_order (t : Terminal) (symbol order_type : String)
    (entry_price sl_price tp_price volume : ℚ) (comment : String) :
    Option OrderResult × List TerminalEvent :=
  if order_type = "LIMIT_BUY" ∨ order_type = "LIMIT_SELL" then
    (t.order_send_result,
      [TerminalEvent.orderSend symbol order_type entry_price sl_price tp_price
        volume comment])
  else
    (none, [])

/-- `MT5Adapter.execute_trade_command` (engine/mt5_adapter.py, lines 307-388):
fetch symbol metadata, validate the trade, recompute the volume with the
terminal-reported pip value, and place the order.  Returns the execution
result together with the trace of terminal interactions performed. -/
def execute_trade_command (t : Terminal) (command : TradeCommand) :
    ExecutionResult × List TerminalEvent :=
  let (symbolInfoOpt, ev1) := get_symbol_info t command.symbol
  match symbolInfoOpt with
  | none =>
    ({ success := false
       error := some ("Symbol " ++ command.symbol ++ " not found in MT5")
       ticket := none, execution_price := none, volume := none }, ev1)
  | some symbol_info =>
    let validation :=
      TradeValidator.validate_trade command.order_type command.entry
        command.sl command.tp
    if validation.is_valid = false then
      ({ success := false
         error := some (validation.error.getD "Invalid trade parameters")
         ticket := none, execution_price := none, volume := none }, ev1)
    else
      let pip_value := calculate_pip_value symbol_info
      match RiskCalculator.calculate_volume command.risk_usd command.entry
          command.sl pip_value symbol_info.trade_tick_size
          symbol_info.volume_step symbol_info.volume_min
          symbol_info.volume_max with
      | none =>
        ({ success := false
           error := some "Failed to calculate volume"
           ticket := none, execution_price := none, volume := none }, ev1)
      | some volume =>
        let order_comment := command.emotion ++ "|" ++ command.setup_code
        let (orderResultOpt, ev2) :=
          place_limit_order t command.symbol command.order_type command.entry
            command.sl command.tp volume order_comment
        match orderResultOpt with
        | some order_result =>
          ({ success := true
             error := none
             ticket := some order_result.ticket
             execution_price := some order_result.price
             volume := some order_result.volume }, ev1 ++ ev2)
        | none =>
          ({ success := false
             error := some "Order placement failed"
             ticket := none, execution_price := none, volume := none },
            ev1 ++ ev2)

end MT5Adapter

/-- One interaction of `MT5Adapter.connect` with the terminal:
`mt5.shutdown()`, `mt5.initialize()`, or `mt5.login(...)`. -/
inductive ConnectEvent where
  | shutdown
  | initCall
  | loginCall (login : ℤ)
  deriving Repr, DecidableEq

/-- The terminal-side session state visible through `mt5.account_info()`:
`some l` when a session for account `l` is attached, `none` otherwise. -/
structure MT5State where
  account : Option ℤ
  deriving Repr, DecidableEq

/-- Environment of a `connect` call: the `MT5_LOGIN` / `MT5_PASSWORD` /
`MT5_SERVER` environment variables, and the terminal's responses:
`init_ok n` is the success of the n-th `mt5.initialize()` attempt,
`login_ok l` the success of `mt5.login` for account `l`, and `init_session`
the session account an initialize attaches to when no login is performed. -/
structure ConnectEnv where
  env_login : Option ℤ
  env_password : Option String
  env_server : Option String
  init_ok : ℕ → Bool
  login_ok : ℤ → Bool
  init_session : Option ℤ

/-- Outcome of a `connect` call: returned boolean, resulting terminal state,
the adapter's `self.connected` flag afterwards, and the trace of terminal
interactions performed. -/
structure ConnectResult where
  ok : Bool
  st : MT5State
  connected : Bool
  events : List ConnectEvent
  deriving Repr, DecidableEq

namespace MT5Adapter

/-- The bounded-retry `mt5.initialize()` loop of `connect`
(`for attempt in range(1, max_retries + 1)`), with `attempt` the number of the
current attempt and `fuel` the attempts remaining. -/
def tryInitLoop (env : ConnectEnv) : ℕ → ℕ → Bool × List ConnectEvent
  | _, 0 => (false, [])
  | attempt, fuel + 1 =>
    if env.init_ok attempt then (true, [ConnectEvent.initCall])
    else
      let rest := tryInitLoop env (attempt + 1) fuel
      (rest.1, ConnectEvent.initCall :: rest.2)

/-- `MT5Adapter.connect` (engine/mt5_adapter.py, lines 39-132).
Credentials default to the environment variables; when not forcing a
reconnect, an existing session for the same (or unspecified) account is kept
as-is and the call returns success immediately.  Otherwise the session is torn
down if needed, the terminal is initialized with up to 3 attempts, and, when
full credentials are available, a login is performed (tearing down again on
authentication failure). -/
def connect (st : MT5State) (env : ConnectEnv) (connected : Bool)
    (loginArg : Option ℤ) (passwordArg serverArg : Option String)
    (force_reconnect : Bool) : ConnectResult :=
  let login := loginArg.orElse (fun _ => env.env_login)
  let password := passwordArg.orElse (fun _ => env.env_password)
  let server := serverArg.orElse (fun _ => env.env_server)
  -- "Check if already connected to the same account"
  let check : Option Bool :=
    if force_reconnect = false then
      match st.account with
      | some acc =>
        if login = none ∨ login = some acc then some true  -- early success
        else some false                                    -- switch accounts
      | none => none
    else none
  if check = some true then
    { ok := true, st := st, connected := true, events := [] }
  else
    let forced := force_reconnect ∨ check = some false
    -- "Shutdown if force_reconnect"
    let afterShutdown : MT5State × List ConnectEvent :=
      if forced then (⟨none⟩, [ConnectEvent.shutdown]) else (st, [])
    let initRes := tryInitLoop env 1 3
    if initRes.1 = false then
      { ok := false, st := afterShutdown.1, connected := connected
        events := afterShutdown.2 ++ initRes.2 }
    else
      match login, password, server with
      | some l, some _, some _ =>
        if env.login_ok l then
          { ok := true, st := ⟨some l⟩, connected := true
            events := afterShutdown.2 ++ initRes.2 ++ [ConnectEvent.loginCall l] }
        else
          { ok := false, st := ⟨none⟩, connected := connected
            events := afterShutdown.2 ++ initRes.2 ++
              [ConnectEvent.loginCall l, ConnectEvent.shutdown] }
      | _, _, _ =>
        -- "No credentials provided, using existing MT5 session"
        { ok := true, st := ⟨env.init_session⟩, connected := true
          events := afterShutdown.2 ++ initRes.2 }

end MT5Adapter

/-! ### Concrete fixtures used in witnesses and counterexamples -/

/-- A gold-like instrument metadata record (tick size 0.01). -/
def goldInfo : SymbolInfo :=
  { name := "XAUUSD", trade_contract_size := 100, trade_tick_value := 1
    trade_tick_size := 1/100, volume_min := 1/100, volume_max := 100
    volume_step := 1/100, point := 1/100, digits := 2, bid := 2000, ask := 2001 }

/-- A terminal that knows the symbol "XAUUSD" and would accept an order
(retcode 10009 is TRADE_RETCODE_DONE). -/
def goldTerminal : Terminal :=
  { symbol_info := fun s => if s = "XAUUSD" then some goldInfo else none
    order_send_result :=
      some { ticket := 1, volume := 1/10, price := 2000, retcode := 10009
             comment := "" } }

/-- A LIMIT_BUY command whose stop loss lies above entry (stop-side invalid). -/
def badStopCommand : TradeCommand :=
  { symbol := "XAUUSD", order_type := "LIMIT_BUY", entry := 2000, sl := 2005
    tp := 2015, risk_usd := 50, emotion := "calm", setup_code := "FZ1" }

/-- A connect environment with no credential variables whose terminal always
initializes and authenticates successfully. -/
def happyConnectEnv : ConnectEnv :=
  { env_login := none, env_password := none, env_server := none
    init_ok := fun _ => true, login_ok := fun _ => true, init_session := none }

/-- A sample stored notification. -/
def sampleNotification : Notification :=
  { notification_id := "20250101_000000_1_1", telegram_id := 1, trade_id := 1
    success := true, message := "done", details := [], created_at := "t"
    sent := false }

/-- A notification store holding exactly `sampleNotification`. -/
def sampleNotificationQueue : NotificationQueue :=
  { files := [("20250101_000000_1_1", sampleNotification)] }

/-! ### Library lemmas about the rounding model -/

theorem roundHalfEven_intCast (n : ℤ) : roundHalfEven (n : ℚ) = n := by
  unfold roundHalfEven
  rw [Int.floor_intCast]
  norm_num

theorem floor_le_roundHalfEven (x : ℚ) : ⌊x⌋ ≤ roundHalfEven x := by
  unfold roundHalfEven
  split_ifs <;> omega

theorem roundHalfEven_le_floor_add_one (x : ℚ) : roundHalfEven x ≤ ⌊x⌋ + 1 := by
  unfold roundHalfEven
  split_ifs <;> omega

theorem roundHalfEven_mono {x y : ℚ} (h : x ≤ y) :
    roundHalfEven x ≤ roundHalfEven y := by
  rcases lt_or_eq_of_le (Int.floor_le_floor (α := ℚ) h) with hf | hf
  · have h1 := roundHalfEven_le_floor_add_one x
    have h2 := floor_le_roundHalfEven y
    omega
  · unfold roundHalfEven
    rw [← hf]
    have hxy : x - ⌊x⌋ ≤ y - ⌊x⌋ := by linarith
    split_ifs <;> first | omega | linarith

theorem roundTo_mono {x y : ℚ} (p : ℕ) (h : x ≤ y) : roundTo x p ≤ roundTo y p := by
  unfold roundTo
  have h10 : (0:ℚ) < 10 ^ p := by positivity
  have hm : (roundHalfEven (x * 10 ^ p) : ℚ) ≤ (roundHalfEven (y * 10 ^ p) : ℚ) := by
    exact_mod_cast roundHalfEven_mono (mul_le_mul_of_nonneg_right h (le_of_lt h10))
  exact (div_le_div_iff_of_pos_right h10).mpr hm

theorem roundTo_int_div (k : ℤ) (p : ℕ) : roundTo ((k : ℚ) / 10 ^ p) p = (k : ℚ) / 10 ^ p := by
  unfold roundTo
  have h10 : (10:ℚ) ^ p ≠ 0 := by positivity
  rw [div_mul_cancel₀ _ h10, roundHalfEven_intCast]

/-- Evaluate `roundTo` when the scaled value is an integer. -/
theorem roundTo_eval {x : ℚ} {p : ℕ} {n : ℤ} (h : x * 10 ^ p = (n : ℚ)) :
    roundTo x p = (n : ℚ) / 10 ^ p := by
  unfold roundTo
  rw [h, roundHalfEven_intCast]

/-- Evaluate `roundTo` when the scaled value sits strictly below the half mark. -/
theorem roundTo_eval_low {x : ℚ} {p : ℕ} {n : ℤ} (h1 : (n : ℚ) ≤ x * 10 ^ p)
    (h2 : x * 10 ^ p - n < 1/2) : roundTo x p = (n : ℚ) / 10 ^ p := by
  unfold roundTo
  have hfl : ⌊x * 10 ^ p⌋ = n := by
    rw [Int.floor_eq_iff]
    constructor
    · exact h1
    · linarith
  unfold roundHalfEven
  rw [hfl, if_pos (by exact_mod_cast h2)]

theorem calculate_volume_eq (r e s p t st mn mx : ℚ) (hr : 0 < r) (hes : e ≠ s) :
    RiskCalculator.calculate_volume r e s p t st mn mx =
      some (RiskCalculator.clampVolume
        (if t ≥ 1/100 then r / (|e - s| * 100)
         else r / ((|e - s| / (1/10000)) * p)) st mn mx) := by
  have h1 : ¬ r ≤ 0 := not_le.mpr hr
  have h2 : ¬ |e - s| = 0 := by
    rw [abs_eq_zero, sub_eq_zero]
    exact hes
  unfold RiskCalculator.calculate_volume RiskCalculator.clampVolume
  rw [if_neg h1, if_neg h2]
  simp only []
  split_ifs <;> rfl

/-- Evaluate `round_to_step` on concrete inputs: the 8-place snap of `value`
is `n / 10^8`, and dividing by `step` lands in `[k, k+1)`. -/
theorem round_to_step_eval (value step : ℚ) (n k : ℤ) (res : ℚ)
    (h1 : value * 10 ^ 8 = (n : ℚ))
    (h2 : (k : ℚ) ≤ (n : ℚ) / 10 ^ 8 / step)
    (h3 : (n : ℚ) / 10 ^ 8 / step < (k : ℚ) + 1)
    (h4 : (k : ℚ) * step = res) :
    RiskCalculator.round_to_step value step = res := by
  simp only [RiskCalculator.round_to_step]
  rw [roundTo_eval h1]
  have hfl : ⌊(n : ℚ) / 10 ^ 8 / step⌋ = k := by
    rw [Int.floor_eq_iff]
    exact ⟨h2, h3⟩
  rw [hfl, h4]

theorem round_to_step_mono {v w step : ℚ} (hst : 0 < step) (h : v ≤ w) :
    RiskCalculator.round_to_step v step ≤ RiskCalculator.round_to_step w step := by
  simp only [RiskCalculator.round_to_step]
  have h1 : roundTo v 8 / step ≤ roundTo w 8 / step :=
    (div_le_div_iff_of_pos_right hst).mpr (roundTo_mono 8 h)
  have h2 : (⌊roundTo v 8 / step⌋ : ℚ) ≤ (⌊roundTo w 8 / step⌋ : ℚ) := by
    exact_mod_cast Int.floor_le_floor h1
  exact mul_le_mul_of_nonneg_right h2 (le_of_lt hst)

theorem round_to_step_le (v step : ℚ) (hst : 0 < step) :
    RiskCalculator.round_to_step v step ≤ roundTo v 8 := by
  simp only [RiskCalculator.round_to_step]
  have h1 : (⌊roundTo v 8 / step⌋ : ℚ) ≤ roundTo v 8 / step := Int.floor_le _
  calc (⌊roundTo v 8 / step⌋ : ℚ) * step
      ≤ roundTo v 8 / step * step := mul_le_mul_of_nonneg_right h1 (le_of_lt hst)
    _ = roundTo v 8 := div_mul_cancel₀ _ (ne_of_gt hst)

/-- The clamp pipeline is monotone in the raw volume, provided the step is
positive, min does not exceed max, and max survives the 8-place snap. -/
theorem clampVolume_mono {a b step mn mx : ℚ} (hst : 0 < step) (hmm : mn ≤ mx)
    (hfix : roundTo mx 8 = mx) (hab : a ≤ b) :
    RiskCalculator.clampVolume a step mn mx ≤
      RiskCalculator.clampVolume b step mn mx := by
  unfold RiskCalculator.clampVolume
  have h1 : RiskCalculator.round_to_step a step ≤ RiskCalculator.round_to_step b step :=
    round_to_step_mono hst hab
  simp only []
  split_ifs <;> try linarith
  all_goals {
    have hax : a ≤ mx := by linarith
    have h2 : RiskCalculator.round_to_step a step ≤ mx :=
      le_trans (round_to_step_le a step hst)
        (le_trans (roundTo_mono 8 hax) (le_of_eq hfix))
    linarith }

/-! ### Claim theorems -/

/-- C4: `validate_sl_position "LIMIT_BUY"` holds iff the stop is strictly
below entry, `"LIMIT_SELL"` iff strictly above, and a stop equal to entry is
invalid for both sides. -/
theorem C4_validate_sl_position_strict (entry_price sl_price : ℚ) :
    (TradeValidator.validate_sl_position "LIMIT_BUY" entry_price sl_price = true ↔
      sl_price < entry_price) ∧
    (TradeValidator.validate_sl_position "LIMIT_SELL" entry_price sl_price = true ↔
      sl_price > entry_price) ∧
    TradeValidator.validate_sl_position "LIMIT_BUY" entry_price entry_price = false ∧
    TradeValidator.validate_sl_position "LIMIT_SELL" entry_price entry_price = false := by
  unfold TradeValidator.validate_sl_position
  have hne : ("LIMIT_SELL" = "LIMIT_BUY") = False := by simp
  norm_num [hne]

/-- C1: `calculate_volume` sizes by the two tick-size regimes
(`riskUsd / (dist * 100)` for tick_size ≥ 0.01, and
`riskUsd / ((dist / 0.0001) * pip_value)` below), returns `none` exactly when
`riskUsd ≤ 0` or `entry = stop`, and on the two reference inputs yields
0.20 and 0.10 lots. -/
theorem C1_sizing_two_regimes (risk entry sl pip tick step mn mx : ℚ) :
    (RiskCalculator.calculate_volume risk entry sl pip tick step mn mx = none ↔
      risk ≤ 0 ∨ entry = sl) ∧
    (0 < risk → entry ≠ sl →
      RiskCalculator.calculate_volume risk entry sl pip tick step mn mx =
        some (RiskCalculator.clampVolume
          (if tick ≥ 1/100 then risk / (|entry - sl| * 100)
           else risk / ((|entry - sl| / (1/10000)) * pip)) step mn mx)) ∧
    RiskCalculator.calculate_volume 100 (11/10) (219/200) 10 (1/100000) (1/100)
      (1/100) 100 = some (1/5) ∧
    RiskCalculator.calculate_volume 50 2000 1995 1 (1/100) (1/100) (1/100) 100 =
      some (1/10) := by
  refine ⟨⟨?_, ?_⟩,
    fun hr hes => calculate_volume_eq risk entry sl pip tick step mn mx hr hes,
    ?_, ?_⟩
  · intro h
    by_cases h1 : risk ≤ 0
    · exact Or.inl h1
    by_cases h2 : entry = sl
    · exact Or.inr h2
    rw [calculate_volume_eq risk entry sl pip tick step mn mx (not_le.mp h1) h2] at h
    exact absurd h (Option.some_ne_none _)
  · intro h
    unfold RiskCalculator.calculate_volume
    rcases h with h | h
    · rw [if_pos h]
    · by_cases h1 : risk ≤ 0
      · rw [if_pos h1]
      · rw [if_neg h1]
        simp [h]
  · rw [calculate_volume_eq 100 (11/10) (219/200) 10 (1/100000) (1/100) (1/100)
      100 (by norm_num) (by norm_num)]
    have habs : |(11:ℚ)/10 - 219/200| = 1/200 := by
      rw [abs_of_pos] <;> norm_num
    have hraw :
        (if (1:ℚ)/100000 ≥ 1/100 then (100:ℚ) / (|(11:ℚ)/10 - 219/200| * 100)
         else 100 / ((|(11:ℚ)/10 - 219/200| / (1/10000)) * 10)) = 1/5 := by
      rw [if_neg (by norm_num), habs]
      norm_num
    rw [hraw]
    simp only [RiskCalculator.clampVolume]
    rw [if_neg (by norm_num)]
    rw [round_to_step_eval (1/5) (1/100) 20000000 20 (1/5) (by norm_num)
      (by norm_num) (by norm_num) (by norm_num)]
    norm_num
  · rw [calculate_volume_eq 50 2000 1995 1 (1/100) (1/100) (1/100) 100
      (by norm_num) (by norm_num)]
    have habs : |(2000:ℚ) - 1995| = 5 := by
      rw [abs_of_pos] <;> norm_num
    have hraw :
        (if (1:ℚ)/100 ≥ 1/100 then (50:ℚ) / (|(2000:ℚ) - 1995| * 100)
         else 50 / ((|(2000:ℚ) - 1995| / (1/10000)) * 1)) = 1/10 := by
      rw [if_pos (by norm_num), habs]
      norm_num
    rw [hraw]
    simp only [RiskCalculator.clampVolume]
    rw [if_neg (by norm_num)]
    rw [round_to_step_eval (1/10) (1/100) 10000000 10 (1/10) (by norm_num)
      (by norm_num) (by norm_num) (by norm_num)]
    norm_num

/-- C1 witness: the regime equation instantiated on the gold reference input,
hypotheses discharged concretely. -/
theorem C1_sizing_two_regimes_witness :
    (0:ℚ) < 50 ∧ ((2000:ℚ) ≠ 1995) ∧
    RiskCalculator.calculate_volume 50 2000 1995 1 (1/100) (1/100) (1/100) 100 =
      some (RiskCalculator.clampVolume
        (if (1:ℚ)/100 ≥ 1/100 then (50:ℚ) / (|(2000:ℚ) - 1995| * 100)
         else 50 / ((|(2000:ℚ) - 1995| / (1/10000)) * 1)) (1/100) (1/100) 100) :=
  ⟨by norm_num, by norm_num,
    (C1_sizing_two_regimes 50 2000 1995 1 (1/100) (1/100) (1/100) 100).2.1
      (by norm_num) (by norm_num)⟩

/-- C2 (amended): on accepted inputs the max-volume cap is applied to the raw
unrounded volume first and, when it binds, the cap itself is returned without
any rounding to `volume_step`; otherwise the volume is rounded down to
`volume_step` (with the 8-place snap) and the minimum floor is applied last. -/
theorem C2_clamp_order (r e s p t st mn mx : ℚ) (hr : 0 < r) (hes : e ≠ s) :
    RiskCalculator.calculate_volume r e s p t st mn mx =
      some (
        if (if t ≥ 1/100 then r / (|e - s| * 100)
            else r / ((|e - s| / (1/10000)) * p)) > mx then mx
        else if RiskCalculator.round_to_step
            (if t ≥ 1/100 then r / (|e - s| * 100)
             else r / ((|e - s| / (1/10000)) * p)) st < mn then mn
        else RiskCalculator.round_to_step
            (if t ≥ 1/100 then r / (|e - s| * 100)
             else r / ((|e - s| / (1/10000)) * p)) st) := by
  rw [calculate_volume_eq r e s p t st mn mx hr hes]
  simp only [RiskCalculator.clampVolume]

/-- C2 witness: the amended clamp order instantiated where the cap binds. -/
theorem C2_clamp_order_witness :
    (0:ℚ) < 1000000 ∧ ((2000:ℚ) ≠ 1995) ∧
    RiskCalculator.calculate_volume 1000000 2000 1995 1 (1/100) (1/100) (1/100)
      (3/200) =
      some (
        if (if (1:ℚ)/100 ≥ 1/100 then (1000000:ℚ) / (|(2000:ℚ) - 1995| * 100)
            else 1000000 / ((|(2000:ℚ) - 1995| / (1/10000)) * 1)) > 3/200
        then 3/200
        else if RiskCalculator.round_to_step
            (if (1:ℚ)/100 ≥ 1/100 then (1000000:ℚ) / (|(2000:ℚ) - 1995| * 100)
             else 1000000 / ((|(2000:ℚ) - 1995| / (1/10000)) * 1)) (1/100) < 1/100
        then 1/100
        else RiskCalculator.round_to_step
            (if (1:ℚ)/100 ≥ 1/100 then (1000000:ℚ) / (|(2000:ℚ) - 1995| * 100)
             else 1000000 / ((|(2000:ℚ) - 1995| / (1/10000)) * 1)) (1/100)) :=
  ⟨by norm_num, by norm_num,
    C2_clamp_order 1000000 2000 1995 1 (1/100) (1/100) (1/100) (3/200)
      (by norm_num) (by norm_num)⟩

/-- C2 counterexample: with `max_volume = 0.015` and `volume_step = 0.01`, an
oversized risk request returns the cap 0.015 as-is; the cap floored to a step
multiple would be 0.01, so the returned volume is not the floored cap. -/
theorem C2_cap_not_floored_counterexample :
    RiskCalculator.calculate_volume 1000000 2000 1995 1 (1/100) (1/100) (1/100)
      (3/200) = some (3/200) ∧
    RiskCalculator.round_to_step (3/200) (1/100) = 1/100 ∧
    ((3:ℚ)/200 ≠ 1/100) := by
  refine ⟨?_, ?_, by norm_num⟩
  · rw [calculate_volume_eq 1000000 2000 1995 1 (1/100) (1/100) (1/100) (3/200)
      (by norm_num) (by norm_num)]
    have habs : |(2000:ℚ) - 1995| = 5 := by
      rw [abs_of_pos] <;> norm_num
    have hraw :
        (if (1:ℚ)/100 ≥ 1/100 then (1000000:ℚ) / (|(2000:ℚ) - 1995| * 100)
         else 1000000 / ((|(2000:ℚ) - 1995| / (1/10000)) * 1)) = 2000 := by
      rw [if_pos (by norm_num), habs]
      norm_num
    simp only [RiskCalculator.clampVolume]
    rw [hraw, if_pos (by norm_num)]
  · exact round_to_step_eval (3/200) (1/100) 1500000 1 (1/100) (by norm_num)
      (by norm_num) (by norm_num) (by norm_num)

/-- C5 (amended): `calculate_rr_ratio` returns the signed reward over risk
*rounded to 2 decimal places* (not the exact quotient), returns 0 when the
risk distance is 0, and on the scenario entry=2000, stop=1995, target=2015
(BUY) yields ratio 3.0 with risk distance 5 and reward distance 15. -/
theorem C5_rr_ratio_signed (e s t : ℚ) :
    (|e - s| = 0 →
      TradeValidator.calculate_rr_ratio "LIMIT_BUY" e s t = 0 ∧
      TradeValidator.calculate_rr_ratio "LIMIT_SELL" e s t = 0) ∧
    (|e - s| ≠ 0 →
      TradeValidator.calculate_rr_ratio "LIMIT_BUY" e s t =
        roundTo ((if t < e then -(e - t) else |t - e|) / |e - s|) 2 ∧
      TradeValidator.calculate_rr_ratio "LIMIT_SELL" e s t =
        roundTo ((if t > e then -(t - e) else |t - e|) / |e - s|) 2) ∧
    TradeValidator.calculate_rr_ratio "LIMIT_BUY" 2000 1995 2015 = 3 ∧
    |(2000:ℚ) - 1995| = 5 ∧ |(2015:ℚ) - 2000| = 15 := by
  have hbuy : ∀ e s t : ℚ, |e - s| ≠ 0 →
      TradeValidator.calculate_rr_ratio "LIMIT_BUY" e s t =
        roundTo ((if t < e then -(e - t) else |t - e|) / |e - s|) 2 := by
    intro e s t h
    simp only [TradeValidator.calculate_rr_ratio]
    rw [if_neg h]
    simp
  have hsell : ∀ e s t : ℚ, |e - s| ≠ 0 →
      TradeValidator.calculate_rr_ratio "LIMIT_SELL" e s t =
        roundTo ((if t > e then -(t - e) else |t - e|) / |e - s|) 2 := by
    intro e s t h
    simp only [TradeValidator.calculate_rr_ratio]
    rw [if_neg h]
    simp
  have h5 : |(2000:ℚ) - 1995| = 5 := by
    rw [abs_of_pos] <;> norm_num
  have h15 : |(2015:ℚ) - 2000| = 15 := by
    rw [abs_of_pos] <;> norm_num
  refine ⟨fun h => ⟨?_, ?_⟩, fun h => ⟨hbuy e s t h, hsell e s t h⟩, ?_, h5, h15⟩
  · simp only [TradeValidator.calculate_rr_ratio]
    rw [if_pos h]
  · simp only [TradeValidator.calculate_rr_ratio]
    rw [if_pos h]
  · rw [hbuy 2000 1995 2015 (by rw [h5]; norm_num)]
    rw [if_neg (by norm_num), h15, h5]
    rw [roundTo_eval (show ((15:ℚ)/5) * 10 ^ 2 = ((300:ℤ):ℚ) by norm_num)]
    norm_num

/-- C5 witness: the signed-reward equation instantiated at a SELL input with
the hypothesis `|entry - stop| ≠ 0` discharged concretely. -/
theorem C5_rr_ratio_signed_witness :
    (|(2000:ℚ) - 2010| ≠ 0) ∧
    (TradeValidator.calculate_rr_ratio "LIMIT_BUY" 2000 2010 1980 =
      roundTo ((if (1980:ℚ) < 2000 then -((2000:ℚ) - 1980) else |(1980:ℚ) - 2000|) /
        |(2000:ℚ) - 2010|) 2 ∧
     TradeValidator.calculate_rr_ratio "LIMIT_SELL" 2000 2010 1980 =
      roundTo ((if (1980:ℚ) > 2000 then -((1980:ℚ) - 2000) else |(1980:ℚ) - 2000|) /
        |(2000:ℚ) - 2010|) 2) := by
  have h10 : |(2000:ℚ) - 2010| = 10 := by
    rw [abs_of_neg] <;> norm_num
  have hne : |(2000:ℚ) - 2010| ≠ 0 := by
    rw [h10]
    norm_num
  exact ⟨hne, (C5_rr_ratio_signed 2000 2010 1980).2.1 hne⟩

/-- C5 counterexample: at entry=0, stop=3, target=1 (BUY) the exact quotient
reward/risk is 1/3, but the function returns 0.33. -/
theorem C5_rr_ratio_rounded_counterexample :
    TradeValidator.calculate_rr_ratio "LIMIT_BUY" 0 3 1 = 33/100 ∧
    |(1:ℚ) - 0| / |(0:ℚ) - 3| = 1/3 ∧
    ((33:ℚ)/100 ≠ 1/3) := by
  have h3 : |(0:ℚ) - 3| = 3 := by
    rw [abs_of_neg] <;> norm_num
  have h1 : |(1:ℚ) - 0| = 1 := by
    rw [abs_of_pos] <;> norm_num
  refine ⟨?_, by rw [h1, h3], by norm_num⟩
  have key : TradeValidator.calculate_rr_ratio "LIMIT_BUY" 0 3 1 =
      roundTo (1/3) 2 := by
    simp only [TradeValidator.calculate_rr_ratio]
    rw [if_neg (by rw [h3]; norm_num)]
    norm_num [h1, h3]
  rw [key]
  rw [roundTo_eval_low (show ((33:ℤ):ℚ) ≤ ((1:ℚ)/3) * 10 ^ 2 by norm_num)
    (show ((1:ℚ)/3) * 10 ^ 2 - (33:ℤ) < 1/2 by norm_num)]
  norm_num

/-- C9: for nonzero risk the returned ratio is the signed reward over risk
rounded to 2 decimal places, so it differs from the exact quotient in general:
risk 3 and reward 1 yield 0.33, not 1/3. -/
theorem C9_rr_ratio_two_decimals (ot : String) (e s t : ℚ)
    (h : |e - s| ≠ 0) :
    TradeValidator.calculate_rr_ratio ot e s t =
      roundTo ((if ot = "LIMIT_BUY" then (if t < e then -(e - t) else |t - e|)
                else if ot = "LIMIT_SELL" then (if t > e then -(t - e) else |t - e|)
                else |t - e|) / |e - s|) 2 ∧
    TradeValidator.calculate_rr_ratio "LIMIT_BUY" 0 3 1 = 33/100 ∧
    ((33:ℚ)/100 ≠ 1/3) := by
  refine ⟨?_, ?_, by norm_num⟩
  · simp only [TradeValidator.calculate_rr_ratio]
    rw [if_neg h]
  · have h3 : |(0:ℚ) - 3| = 3 := by
      rw [abs_of_neg] <;> norm_num
    have h1 : |(1:ℚ) - 0| = 1 := by
      rw [abs_of_pos] <;> norm_num
    have key : TradeValidator.calculate_rr_ratio "LIMIT_BUY" 0 3 1 =
        roundTo (1/3) 2 := by
      simp only [TradeValidator.calculate_rr_ratio]
      rw [if_neg (by rw [h3]; norm_num)]
      norm_num [h1, h3]
    rw [key]
    rw [roundTo_eval_low (show ((33:ℤ):ℚ) ≤ ((1:ℚ)/3) * 10 ^ 2 by norm_num)
      (show ((1:ℚ)/3) * 10 ^ 2 - (33:ℤ) < 1/2 by norm_num)]
    norm_num

/-- C9 witness: the rounding equation instantiated at entry=0, stop=3,
target=1 on the BUY side, with the nonzero-risk hypothesis discharged. -/
theorem C9_rr_ratio_two_decimals_witness :
    (|(0:ℚ) - 3| ≠ 0) ∧
    (TradeValidator.calculate_rr_ratio "LIMIT_BUY" 0 3 1 =
      roundTo ((if ("LIMIT_BUY":String) = "LIMIT_BUY" then
                  (if (1:ℚ) < 0 then -((0:ℚ) - 1) else |(1:ℚ) - 0|)
                else if ("LIMIT_BUY":String) = "LIMIT_SELL" then
                  (if (1:ℚ) > 0 then -((1:ℚ) - 0) else |(1:ℚ) - 0|)
                else |(1:ℚ) - 0|) / |(0:ℚ) - 3|) 2 ∧
     TradeValidator.calculate_rr_ratio "LIMIT_BUY" 0 3 1 = 33/100 ∧
     ((33:ℚ)/100 ≠ 1/3)) := by
  have hne : |(0:ℚ) - 3| ≠ 0 := by
    rw [show |(0:ℚ) - 3| = 3 from by rw [abs_of_neg] <;> norm_num]
    norm_num
  exact ⟨hne, C9_rr_ratio_two_decimals "LIMIT_BUY" 0 3 1 hne⟩

/-- C8 (amended): with a positive pip value and step, min ≤ max, and a max
volume representable at 8 decimal places, the sized volume is monotone in the
risk budget: `0 < r1 ≤ r2` yields volumes `v1 ≤ v2`. -/
theorem C8_volume_monotone_in_risk (e s p t st mn mx r1 r2 : ℚ) (k : ℤ)
    (hr1 : 0 < r1) (h12 : r1 ≤ r2) (hes : e ≠ s) (hp : 0 < p) (hst : 0 < st)
    (hmm : mn ≤ mx) (hmx : mx = (k : ℚ) / 10 ^ 8) :
    ∃ v1 v2,
      RiskCalculator.calculate_volume r1 e s p t st mn mx = some v1 ∧
      RiskCalculator.calculate_volume r2 e s p t st mn mx = some v2 ∧
      v1 ≤ v2 := by
  have hr2 : 0 < r2 := lt_of_lt_of_le hr1 h12
  have hd : 0 < |e - s| := abs_pos.mpr (sub_ne_zero.mpr hes)
  have hfix : roundTo mx 8 = mx := by
    rw [hmx]
    exact roundTo_int_div k 8
  refine ⟨_, _,
    calculate_volume_eq r1 e s p t st mn mx hr1 hes,
    calculate_volume_eq r2 e s p t st mn mx hr2 hes,
    clampVolume_mono hst hmm hfix ?_⟩
  split_ifs with hreg
  · exact (div_le_div_iff_of_pos_right (mul_pos hd (by norm_num))).mpr h12
  · exact (div_le_div_iff_of_pos_right
      (mul_pos (div_pos hd (by norm_num)) hp)).mpr h12

/-- C8 witness: monotonicity instantiated on the gold regime with risks 50 and
100, all hypotheses discharged concretely. -/
theorem C8_volume_monotone_in_risk_witness :
    (0:ℚ) < 50 ∧ (50:ℚ) ≤ 100 ∧ ((2000:ℚ) ≠ 1995) ∧ (0:ℚ) < 1 ∧
    (0:ℚ) < 1/100 ∧ ((1:ℚ)/100 ≤ 100) ∧
    (100:ℚ) = ((10000000000:ℤ) : ℚ) / 10 ^ 8 ∧
    (∃ v1 v2,
      RiskCalculator.calculate_volume 50 2000 1995 1 (1/100) (1/100) (1/100)
        100 = some v1 ∧
      RiskCalculator.calculate_volume 100 2000 1995 1 (1/100) (1/100) (1/100)
        100 = some v2 ∧
      v1 ≤ v2) :=
  ⟨by norm_num, by norm_num, by norm_num, by norm_num, by norm_num,
    by norm_num, by norm_num,
    C8_volume_monotone_in_risk 2000 1995 1 (1/100) (1/100) (1/100) 100 50 100
      10000000000 (by norm_num) (by norm_num) (by norm_num) (by norm_num)
      (by norm_num) (by norm_num) (by norm_num)⟩

/-- C8 counterexample: with min_volume 50 above max_volume 10 the claim as
stated fails — risk 1 sizes to the minimum floor 50, while the much larger
risk 1000000 hits the cap and sizes to 10 < 50. -/
theorem C8_monotonicity_counterexample :
    (0:ℚ) < 1 ∧ (1:ℚ) ≤ 1000000 ∧
    RiskCalculator.calculate_volume 1 2000 1995 1 (1/100) (1/100) 50 10 =
      some 50 ∧
    RiskCalculator.calculate_volume 1000000 2000 1995 1 (1/100) (1/100) 50 10 =
      some 10 ∧
    ¬ ((50:ℚ) ≤ 10) := by
  have habs : |(2000:ℚ) - 1995| = 5 := by
    rw [abs_of_pos] <;> norm_num
  refine ⟨by norm_num, by norm_num, ?_, ?_, by norm_num⟩
  · rw [calculate_volume_eq 1 2000 1995 1 (1/100) (1/100) 50 10 (by norm_num)
      (by norm_num)]
    have hraw :
        (if (1:ℚ)/100 ≥ 1/100 then (1:ℚ) / (|(2000:ℚ) - 1995| * 100)
         else 1 / ((|(2000:ℚ) - 1995| / (1/10000)) * 1)) = 1/500 := by
      rw [if_pos (by norm_num), habs]
      norm_num
    rw [hraw]
    simp only [RiskCalculator.clampVolume]
    rw [if_neg (by norm_num)]
    rw [round_to_step_eval (1/500) (1/100) 200000 0 0 (by norm_num)
      (by norm_num) (by norm_num) (by norm_num)]
    norm_num
  · rw [calculate_volume_eq 1000000 2000 1995 1 (1/100) (1/100) 50 10
      (by norm_num) (by norm_num)]
    have hraw :
        (if (1:ℚ)/100 ≥ 1/100 then (1000000:ℚ) / (|(2000:ℚ) - 1995| * 100)
         else 1000000 / ((|(2000:ℚ) - 1995| / (1/10000)) * 1)) = 2000 := by
      rw [if_pos (by norm_num), habs]
      norm_num
    rw [hraw]
    simp only [RiskCalculator.clampVolume]
    rw [if_pos (by norm_num)]

/-- C6: `enqueue` immediately followed by `dequeue` on the returned queue id
yields an envelope whose payload equals the original command, and after the
dequeue that id no longer appears in `list_pending`. -/
theorem C6_enqueue_dequeue_roundtrip {α : Type} (q : CommandQueue α)
    (qid queued_at : String) (cmd : α) :
    ∃ env : QueuedEnvelope α,
      ((q.enqueue qid queued_at cmd).1.dequeue (q.enqueue qid queued_at cmd).2).1 =
        some env ∧
      env.command = cmd ∧
      (q.enqueue qid queued_at cmd).2 ∉
        ((q.enqueue qid queued_at cmd).1.dequeue
          (q.enqueue qid queued_at cmd).2).2.list_pending := by
  refine ⟨⟨qid, queued_at, "pending", cmd⟩, ?_, rfl, ?_⟩
  · simp [CommandQueue.enqueue, CommandQueue.dequeue]
  · intro hmem
    simp only [CommandQueue.enqueue, CommandQueue.dequeue,
      CommandQueue.list_pending] at hmem
    rw [List.mem_mergeSort] at hmem
    simp at hmem

/-- C10: `mark_sent` on an id not present in the store returns `False` and
leaves the store unchanged; consequently a second `mark_sent` with the same id
always returns `False` and deletes nothing. -/
theorem C10_mark_sent_absent_noop (q : NotificationQueue) (nid : String) :
    (nid ∉ q.files.map Prod.fst → q.mark_sent nid = (false, q)) ∧
    (q.mark_sent nid).2.mark_sent nid = (false, (q.mark_sent nid).2) := by
  have hfilter : ∀ l : List (String × Notification),
      (l.filter (fun p => p.1 != nid)).find? (fun p => p.1 == nid) = none := by
    intro l
    rw [List.find?_eq_none]
    intro x hx
    have hne := (List.mem_filter.mp hx).2
    simp only [bne_iff_ne, ne_eq] at hne
    simpa using hne
  constructor
  · intro h
    have hnone : q.files.find? (fun p => p.1 == nid) = none := by
      rw [List.find?_eq_none]
      intro x hx hbeq
      exact h (List.mem_map.mpr ⟨x, hx, by simpa using hbeq⟩)
    simp [NotificationQueue.mark_sent, hnone]
  · cases hfind : q.files.find? (fun p => p.1 == nid) with
    | none =>
      have h1 : q.mark_sent nid = (false, q) := by
        simp [NotificationQueue.mark_sent, hfind]
      rw [h1]
      simp [NotificationQueue.mark_sent, hfind]
    | some x =>
      have h1 : q.mark_sent nid =
          (true, ⟨q.files.filter (fun p => p.1 != nid)⟩) := by
        simp [NotificationQueue.mark_sent, hfind]
      rw [h1]
      simp [NotificationQueue.mark_sent, hfilter q.files]

/-- C10 witness: `mark_sent` on an id absent from the sample store, with the
absence hypothesis discharged concretely. -/
theorem C10_mark_sent_absent_noop_witness :
    ("missing" ∉ sampleNotificationQueue.files.map Prod.fst) ∧
    sampleNotificationQueue.mark_sent "missing" =
      (false, sampleNotificationQueue) := by
  have habs : "missing" ∉ sampleNotificationQueue.files.map Prod.fst := by
    simp [sampleNotificationQueue]
  exact ⟨habs, (C10_mark_sent_absent_noop sampleNotificationQueue "missing").1 habs⟩

/-- C3 (amended): when the symbol lookup succeeds and validation fails, the
execution path returns a failed result carrying the validator's side-specific
error and submits no order — but the instrument-metadata query has already
been made before validation, so the terminal is contacted exactly once. -/
theorem C3_validation_failure_no_order (t : Terminal) (cmd : TradeCommand)
    (si : SymbolInfo) (hsym : t.symbol_info cmd.symbol = some si)
    (hval : (TradeValidator.validate_trade cmd.order_type cmd.entry cmd.sl
      cmd.tp).is_valid = false) :
    MT5Adapter.execute_trade_command t cmd =
      ({ success := false
         error := some ((TradeValidator.validate_trade cmd.order_type cmd.entry
           cmd.sl cmd.tp).error.getD "Invalid trade parameters")
         ticket := none, execution_price := none, volume := none },
       [TerminalEvent.symbolInfoQuery cmd.symbol]) := by
  simp only [MT5Adapter.execute_trade_command, MT5Adapter.get_symbol_info]
  rw [hsym]
  simp only [hval]
  rfl

/-- C3 counterexample: on a stop-side-invalid LIMIT_BUY command the execution
path does synthesize the validator's failure result and submits no order, but
the event trace contains an instrument-metadata query — the terminal was
contacted, contradicting "no instrument-metadata query occurs". -/
theorem C3_metadata_query_on_invalid_command :
    (TradeValidator.validate_trade badStopCommand.order_type
      badStopCommand.entry badStopCommand.sl badStopCommand.tp).is_valid =
      false ∧
    (MT5Adapter.execute_trade_command goldTerminal badStopCommand).1 =
      { success := false
        error := some "For LIMIT BUY, stop loss must be below entry price"
        ticket := none, execution_price := none, volume := none } ∧
    (MT5Adapter.execute_trade_command goldTerminal badStopCommand).2 =
      [TerminalEvent.symbolInfoQuery "XAUUSD"] ∧
    (MT5Adapter.execute_trade_command goldTerminal badStopCommand).2 ≠ [] := by
  have hval : (TradeValidator.validate_trade badStopCommand.order_type
      badStopCommand.entry badStopCommand.sl badStopCommand.tp).is_valid =
      false := by
    simp only [badStopCommand]
    norm_num [TradeValidator.validate_trade, TradeValidator.validate_sl_position]
  have hexec : MT5Adapter.execute_trade_command goldTerminal badStopCommand =
      ({ success := false
         error := some "For LIMIT BUY, stop loss must be below entry price"
         ticket := none, execution_price := none, volume := none },
       [TerminalEvent.symbolInfoQuery "XAUUSD"]) := by
    simp only [MT5Adapter.execute_trade_command, MT5Adapter.get_symbol_info,
      goldTerminal, badStopCommand]
    norm_num [TradeValidator.validate_trade, TradeValidator.validate_sl_position]
  exact ⟨hval, by rw [hexec], by rw [hexec], by rw [hexec]; simp⟩

/-- C3 witness: the amended failure-path equation instantiated on the concrete
bad-stop command against the gold terminal, hypotheses discharged. -/
theorem C3_validation_failure_no_order_witness :
    goldTerminal.symbol_info badStopCommand.symbol = some goldInfo ∧
    (TradeValidator.validate_trade badStopCommand.order_type
      badStopCommand.entry badStopCommand.sl badStopCommand.tp).is_valid =
      false ∧
    MT5Adapter.execute_trade_command goldTerminal badStopCommand =
      ({ success := false
         error := some ((TradeValidator.validate_trade
           badStopCommand.order_type badStopCommand.entry badStopCommand.sl
           badStopCommand.tp).error.getD "Invalid trade parameters")
         ticket := none, execution_price := none, volume := none },
       [TerminalEvent.symbolInfoQuery badStopCommand.symbol]) := by
  have hsym : goldTerminal.symbol_info badStopCommand.symbol = some goldInfo := by
    simp [goldTerminal, badStopCommand]
  have hval : (TradeValidator.validate_trade badStopCommand.order_type
      badStopCommand.entry badStopCommand.sl badStopCommand.tp).is_valid =
      false := by
    simp only [badStopCommand]
    norm_num [TradeValidator.validate_trade, TradeValidator.validate_sl_position]
  exact ⟨hsym, hval,
    C3_validation_failure_no_order goldTerminal badStopCommand goldInfo hsym hval⟩

/-- C7: `connect` is idempotent — with an established session, no credential
change (same or absent identity) and no forced reconnect, it is a no-op
returning success with no terminal interaction; consequently two consecutive
`connect()` calls perform exactly one initialize/login sequence. -/
theorem C7_connect_idempotent :
    (∀ (st : MT5State) (env : ConnectEnv) (c : Bool) (lg : Option ℤ)
        (pw sv : Option String) (acc : ℤ),
      st.account = some acc →
      (lg.orElse (fun _ => env.env_login) = none ∨
        lg.orElse (fun _ => env.env_login) = some acc) →
      MT5Adapter.connect st env c lg pw sv false =
        { ok := true, st := st, connected := true, events := [] }) ∧
    (∀ (env : ConnectEnv) (l : ℤ) (pw sv : String),
      env.init_ok 1 = true → env.login_ok l = true →
      MT5Adapter.connect ⟨none⟩ env false (some l) (some pw) (some sv) false =
        { ok := true, st := ⟨some l⟩, connected := true
          events := [ConnectEvent.initCall, ConnectEvent.loginCall l] } ∧
      MT5Adapter.connect ⟨some l⟩ env true (some l) (some pw) (some sv) false =
        { ok := true, st := ⟨some l⟩, connected := true, events := [] }) := by
  constructor
  · intro st env c lg pw sv acc hacc hmatch
    simp only [MT5Adapter.connect, hacc]
    rw [if_pos hmatch]
    simp
  · intro env l pw sv h1 h2
    constructor
    · simp [MT5Adapter.connect, MT5Adapter.tryInitLoop, h1, h2, Option.orElse]
    · simp [MT5Adapter.connect, Option.orElse]

/-- C7 witness: idempotence at a connected state for account 7, and the
two-call trace for a fresh connection of account 3, hypotheses discharged. -/
theorem C7_connect_idempotent_witness :
    (MT5State.mk (some 7)).account = some 7 ∧
    ((some 7 : Option ℤ).orElse (fun _ => happyConnectEnv.env_login) = none ∨
      (some 7 : Option ℤ).orElse (fun _ => happyConnectEnv.env_login) = some 7) ∧
    MT5Adapter.connect ⟨some 7⟩ happyConnectEnv false (some 7) none none false =
      { ok := true, st := ⟨some 7⟩, connected := true, events := [] } ∧
    happyConnectEnv.init_ok 1 = true ∧
    happyConnectEnv.login_ok 3 = true ∧
    (MT5Adapter.connect ⟨none⟩ happyConnectEnv false (some 3) (some "pw")
        (some "sv") false =
      { ok := true, st := ⟨some 3⟩, connected := true
        events := [ConnectEvent.initCall, ConnectEvent.loginCall 3] } ∧
     MT5Adapter.connect ⟨some 3⟩ happyConnectEnv true (some 3) (some "pw")
        (some "sv") false =
      { ok := true, st := ⟨some 3⟩, connected := true, events := [] }) := by
  have hmatch : (some 7 : Option ℤ).orElse (fun _ => happyConnectEnv.env_login) =
      none ∨
      (some 7 : Option ℤ).orElse (fun _ => happyConnectEnv.env_login) = some 7 :=
    Or.inr rfl
  exact ⟨rfl, hmatch,
    C7_connect_idempotent.1 ⟨some 7⟩ happyConnectEnv false (some 7) none none 7
      rfl hmatch,
    rfl, rfl,
    C7_connect_idempotent.2 happyConnectEnv 3 "pw" "sv" rfl rfl⟩
